import Mathlib

/-
Verification development for the MoQ-to-host media bridge
(obs-moq: hang-source.c + nvdec-decoder.c).

Shallow embedding conventions:
  * Bytes are `Nat` values (the C type is `uint8_t`; encoders in this file
    only produce values `< 256`, and theorems add explicit bounds where a
    byte value matters).
  * `uint64_t` timestamp arithmetic is modelled in `Nat` with explicit
    `% 2^64` at each operation that the C code performs on `uint64_t`.
  * Resource handles are `Int` (the C type is `int32_t`; only the sign is
    ever inspected by this code).
  * Calls into external libraries (libmoq, FFmpeg, OBS) are modelled by
    oracle environments: a structure holding the return values the
    libraries would produce, consumed in program order.
  * Each C function that performs externally visible actions returns,
    next to its result, the list of `Event`s it performs, in order.
-/

namespace ObsMoq

/-- Externally visible actions performed by the plugin, in program order.
`lock`/`unlock` are operations on `decoder_mutex` (the decoder gate). -/
inductive Event : Type
  | lock
  | unlock
  | originCreate (id : Int)
  | sessionConnect (id : Int)
  | consumeBroadcast (id : Int)
  | subCatalog (id : Int)
  | subVideoTrack (id : Int)
  | subAudioTrack (id : Int)
  | audioTrackClose
  | videoTrackClose
  | catalogClose
  | broadcastClose
  | sessionClose
  | originClose
  | frameClose (fid : Int)
  | sendPacket (n : Nat)
  | emit (ts : Nat)
  | free
deriving DecidableEq, Repr

/-- Number of occurrences of event `e` in a trace. -/
def countE (e : Event) : List Event → Nat
  | [] => 0
  | x :: xs => (if x = e then 1 else 0) + countE e xs

/-- Whether an event is a close of one of the six MoQ session resources. -/
def isClose : Event → Bool
  | Event.audioTrackClose => true
  | Event.videoTrackClose => true
  | Event.catalogClose => true
  | Event.broadcastClose => true
  | Event.sessionClose => true
  | Event.originClose => true
  | _ => false

/-- The close events of a trace, in order. -/
def closesOf (l : List Event) : List Event := l.filter isClose

/-- Reverse-creation close order from `hang_source_deactivate`. -/
def canonCloseOrder : List Event :=
  [Event.audioTrackClose, Event.videoTrackClose, Event.catalogClose,
   Event.broadcastClose, Event.sessionClose, Event.originClose]

/-- The mutable fields of `struct hang_source` that the verified code
touches (hang-source.h is mirrored by hang-source.c usage). -/
structure HangState : Type where
  active : Bool
  origin_id : Int
  session_id : Int
  broadcast_id : Int
  catalog_consumer_id : Int
  video_track_id : Int
  audio_track_id : Int
  nvdec_present : Bool
  audio_dec_present : Bool
  sws_present : Bool
  has_first_frame : Bool
  first_frame_pts_us : Nat
  first_frame_obs_time_ns : Nat
  last_output_timestamp_ns : Nat
deriving DecidableEq, Repr

/-- The zeroed state produced by `bzalloc` in `hang_source_create`. -/
def initState : HangState :=
  { active := false, origin_id := 0, session_id := 0, broadcast_id := 0,
    catalog_consumer_id := 0, video_track_id := 0, audio_track_id := 0,
    nvdec_present := false, audio_dec_present := false, sws_present := false,
    has_first_frame := false, first_frame_pts_us := 0,
    first_frame_obs_time_ns := 0, last_output_timestamp_ns := 0 }

/-! ## Bitstream normalizer (nvdec-decoder.c, convert_mp4_nal_units_to_annex_b) -/

/-- Big-endian 32-bit read:
`(data[pos] << 24) | (data[pos+1] << 16) | (data[pos+2] << 8) | data[pos+3]`
on byte values. -/
def read_be32 (b0 b1 b2 b3 : Nat) : Nat :=
  b0 * 16777216 + b1 * 65536 + b2 * 256 + b3

/-- Embedding of `convert_mp4_nal_units_to_annex_b`.  The C function walks
the input while at least 4 bytes remain: reads a 4-byte big-endian length
`L`, fails if `L` overruns the remaining input, otherwise emits the start
code `00 00 00 01` followed by the `L` payload bytes.  Buffer management
(bzalloc / brealloc growth) does not affect the produced byte sequence and
is not modelled; allocation failure is not modelled (the success output is
the spec of the byte transformation).  `none` models the `return false`
path with no partial output used. -/
def convert_mp4_nal_units_to_annex_b : List Nat → Option (List Nat)
  | b0 :: b1 :: b2 :: b3 :: rest =>
    let nal_length := read_be32 b0 b1 b2 b3
    if rest.length < nal_length then none
    else
      match convert_mp4_nal_units_to_annex_b (rest.drop nal_length) with
      | none => none
      | some out => some ([0, 0, 0, 1] ++ rest.take nal_length ++ out)
  | _ => some []
termination_by l => l.length
decreasing_by
  simp only [List.length_cons, List.length_drop]
  omega

/-- Big-endian 4-byte encoding of a length (`< 2^32`), for building
well-formed length-prefixed inputs. -/
def be32 (n : Nat) : List Nat :=
  [n / 16777216 % 256, n / 65536 % 256, n / 256 % 256, n % 256]

/-- A well-formed AVCC stream: each NAL unit payload preceded by its
4-byte big-endian length. -/
def encodeNALs (ns : List (List Nat)) : List Nat :=
  ns.foldr (fun p acc => be32 p.length ++ p ++ acc) []

/-- Expected Annex-B output: each payload preceded by `00 00 00 01`. -/
def annexBOut (ns : List (List Nat)) : List Nat :=
  (ns.map (fun p => [0, 0, 0, 1] ++ p)).flatten

/-- Sum of the NAL payload lengths. -/
def sumLens (ns : List (List Nat)) : Nat :=
  (ns.map List.length).sum

/-! ## Timestamp mapper (nvdec-decoder.c, output_decoded_frame lines 356-376) -/

/-- Modulus of `uint64_t` arithmetic. -/
def U64 : Nat := 18446744073709551616

/-- Embedding of the timestamp-mapping block of `output_decoded_frame`:
`obs_timestamp_ns = pts_us * 1000ULL` (u64 wrap), then first-frame
anchoring / monotonicity bump on `last_output_timestamp_ns` (also u64).
Returns the updated state and the emitted timestamp. -/
def mapTimestamp (s : HangState) (pts_us now_ns : Nat) : HangState × Nat :=
  let t := pts_us * 1000 % U64
  if s.has_first_frame = false then
    ({ s with has_first_frame := true, first_frame_pts_us := pts_us,
              first_frame_obs_time_ns := now_ns,
              last_output_timestamp_ns := t }, t)
  else
    let t2 := if t ≤ s.last_output_timestamp_ns
              then (s.last_output_timestamp_ns + 1) % U64
              else t
    ({ s with last_output_timestamp_ns := t2 }, t2)

/-- The timestamp mapper exactly as the claim words it (reference
definition, unbounded arithmetic: `t_ns = p_us * 1000` with no wrap):
compute the emitted value, then record the emitted value as
`last_output_ns`. -/
def mapTimestamp_claim (s : HangState) (pts_us now_ns : Nat) : HangState × Nat :=
  let t := pts_us * 1000
  if s.has_first_frame = false then
    ({ s with has_first_frame := true, first_frame_pts_us := pts_us,
              first_frame_obs_time_ns := now_ns,
              last_output_timestamp_ns := t }, t)
  else
    let emitted := if t ≤ s.last_output_timestamp_ns
                   then s.last_output_timestamp_ns + 1
                   else t
    ({ s with last_output_timestamp_ns := emitted }, emitted)

/-- The claim's reference definition amended with `uint64_t` (mod `2^64`)
arithmetic, which is what the source performs: the emitted value is
computed first and `last_output_ns` is updated to the emitted value. -/
def mapTimestamp_claim_u64 (s : HangState) (pts_us now_ns : Nat) : HangState × Nat :=
  let t := pts_us * 1000 % U64
  if s.has_first_frame = false then
    ({ s with has_first_frame := true, first_frame_pts_us := pts_us,
              first_frame_obs_time_ns := now_ns,
              last_output_timestamp_ns := t }, t)
  else
    let emitted := if t ≤ s.last_output_timestamp_ns
                   then (s.last_output_timestamp_ns + 1) % U64
                   else t
    ({ s with last_output_timestamp_ns := emitted }, emitted)

/-- Run the mapper over a list of `(pts_us, now_ns)` frames, collecting the
emitted timestamps in order. -/
def tsRun (s : HangState) : List (Nat × Nat) → List Nat
  | [] => []
  | pn :: rest =>
    (mapTimestamp s pn.1 pn.2).2 :: tsRun (mapTimestamp s pn.1 pn.2).1 rest

/-! ## Video output path (nvdec-decoder.c, output_decoded_frame) -/

/-- Embedding of `output_decoded_frame`.  Called with `decoder_mutex` held;
`dataPresent` models `data != NULL` (the context pointer is always the live
source context here).  Performs, in source order: the null-data bailout
(unlock, no free of a null pointer); the dimension validation (free + unlock);
otherwise the timestamp-mapper update under `frame_mutex`, the unlock of
`decoder_mutex`, then either a drop (`free`) when the source went inactive or
the emission to OBS (`emit`) followed by the `free` of the RGBA buffer. -/
def output_decoded_frame (s : HangState) (dataPresent : Bool)
    (width height : Nat) (pts_us now_ns : Nat) : HangState × List Event :=
  if dataPresent = false then
    (s, [Event.unlock])
  else if width = 0 ∨ height = 0 ∨ 7680 < width ∨ 4320 < height then
    (s, [Event.free, Event.unlock])
  else
    let is_active := s.active
    let st := mapTimestamp s pts_us now_ns
    if is_active = false then
      (st.1, [Event.unlock, Event.free])
    else
      (st.1, [Event.unlock, Event.emit st.2, Event.free])

/-- Result of one `avcodec_receive_frame` call in the drain loop. -/
inductive RecvRes : Type
  | ok (width height : Nat) (fpts : Option Nat)
  | again
  | eof
  | err
deriving DecidableEq, Repr

/-- Oracle values consumed by one iteration of the drain loop of
`decode_frame`: AVFrame allocation, receive result, SWS-context creation,
RGBA allocation, `sws_scale` result, and the host clock read inside
`output_decoded_frame`. -/
structure DrainItem : Type where
  frameAllocOk : Bool
  recv : RecvRes
  swsOk : Bool
  rgbaOk : Bool
  scaleOk : Bool
  now_ns : Nat
deriving DecidableEq, Repr

/-- Embedding of the `while (true)` drain loop of `decode_frame` (lines
242-321).  One `DrainItem` is consumed per iteration; an exhausted oracle
list models `avcodec_receive_frame` returning `EAGAIN`.  The `success`
flag is set as soon as a frame is received, before any later per-frame
failure, exactly as in the source. -/
def drainLoop (pts : Nat) : HangState → List DrainItem → Bool →
    HangState × List Event × Bool
  | s, [], success => (s, [], success)
  | s, it :: rest, success =>
    if it.frameAllocOk = false then (s, [], success)
    else
      match it.recv with
      | RecvRes.again => (s, [], success)
      | RecvRes.eof => (s, [], success)
      | RecvRes.err => (s, [], success)
      | RecvRes.ok width height fpts =>
        if s.sws_present = false ∧ it.swsOk = false then (s, [], true)
        else
          let s1 := { s with sws_present := true }
          if it.rgbaOk = false then (s1, [], true)
          else if it.scaleOk = false then (s1, [Event.free], true)
          else
            let frame_pts := fpts.getD pts
            if width = 0 ∨ height = 0 then (s1, [Event.free], true)
            else
              let out := output_decoded_frame s1 true width height frame_pts it.now_ns
              let rec_ := drainLoop pts out.1 rest true
              (rec_.1, out.2 ++ rec_.2.1, rec_.2.2)

/-- Oracle values for one `decode_frame` call. -/
structure DecodeEnv : Type where
  packetAllocOk : Bool
  sendRet : Int
  drain : List DrainItem
deriving Repr

/-- Embedding of `decode_frame` (lines 205-325): run the bitstream
normalizer; on failure return false with nothing submitted; otherwise
allocate the packet, submit it (`sendPacket` carries the converted size),
and on successful submission run the drain loop. -/
def decode_frame (s : HangState) (data : List Nat) (pts : Nat)
    (env : DecodeEnv) : HangState × List Event × Bool :=
  match convert_mp4_nal_units_to_annex_b data with
  | none => (s, [], false)
  | some converted =>
    if env.packetAllocOk = false then (s, [], false)
    else
      if env.sendRet < 0 then (s, [Event.sendPacket converted.length], false)
      else
        let d := drainLoop pts s env.drain false
        (d.1, Event.sendPacket converted.length :: d.2.1, d.2.2)

/-- Embedding of `nvdec_decoder_decode`: null-decoder guard, then
`decode_frame`. -/
def nvdec_decoder_decode (s : HangState) (data : List Nat) (pts : Nat)
    (env : DecodeEnv) : HangState × List Event × Bool :=
  if s.nvdec_present = false then (s, [], false)
  else decode_frame s data pts env

/-- Oracle values for one `on_video_frame` callback: the
`moq_consume_frame_chunk` return code, the frame fields it yields, and the
decoder oracle. -/
structure VideoEnv : Type where
  chunkRet : Int
  payload : List Nat
  timestamp_us : Nat
  denv : DecodeEnv
deriving Repr

/-- Embedding of `on_video_frame` (hang-source.c lines 520-567).  `ctx` is
`none` when `user_data` is NULL.  The callback: fast inactive rejection
(closing a positive frame handle), non-positive-handle rejection, chunk
read, decoder-gate lock, re-check of `active`/decoder presence, decode,
unlock-on-failure (on success `output_decoded_frame` has already
unlocked), and the final frame close. -/
def on_video_frame (ctx : Option HangState) (frame_id : Int)
    (env : VideoEnv) : Option HangState × List Event :=
  match ctx with
  | none => (none, if 0 < frame_id then [Event.frameClose frame_id] else [])
  | some s =>
    if s.active = false then
      (some s, if 0 < frame_id then [Event.frameClose frame_id] else [])
    else if frame_id ≤ 0 then (some s, [])
    else if env.chunkRet < 0 then (some s, [Event.frameClose frame_id])
    else if s.active = false ∨ s.nvdec_present = false then
      (some s, [Event.lock, Event.unlock, Event.frameClose frame_id])
    else
      let d := nvdec_decoder_decode s env.payload env.timestamp_us env.denv
      let tail := if d.2.2 = false then [Event.unlock] else []
      (some d.1, Event.lock :: (d.2.1 ++ tail ++ [Event.frameClose frame_id]))

/-- Modelled from the spec: `audio_decoder_decode` lives in
audio-decoder.c, which is not under src/.  Per spec §4.5 the audio decoder
facade decodes the payload to PCM and emits it while the decoder gate is
held; its interface (`payload, size, pts_us`) gives it no access to MoQ
frame handles, so it performs no `frameClose` and no resource close.  The
oracle boolean is its success result. -/
def audio_decoder_decode (payload : List Nat) (pts_us : Nat)
    (envOk : Bool) : Bool × List Event :=
  (envOk, [])

/-- Oracle values for one `on_audio_frame` callback. -/
structure AudioEnv : Type where
  chunkRet : Int
  payload : List Nat
  timestamp_us : Nat
  decodeOk : Bool
deriving Repr

/-- Embedding of `on_audio_frame` (hang-source.c lines 569-614): same
shape as the video callback, except the gate is held across the whole
decode and released by the callback itself on every path. -/
def on_audio_frame (ctx : Option HangState) (frame_id : Int)
    (env : AudioEnv) : Option HangState × List Event :=
  match ctx with
  | none => (none, if 0 < frame_id then [Event.frameClose frame_id] else [])
  | some s =>
    if s.active = false then
      (some s, if 0 < frame_id then [Event.frameClose frame_id] else [])
    else if frame_id ≤ 0 then (some s, [])
    else if env.chunkRet < 0 then (some s, [Event.frameClose frame_id])
    else if s.active = false ∨ s.audio_dec_present = false then
      (some s, [Event.lock, Event.unlock, Event.frameClose frame_id])
    else
      let d := audio_decoder_decode env.payload env.timestamp_us env.decodeOk
      (some s, Event.lock :: (d.2 ++ [Event.unlock, Event.frameClose frame_id]))

/-! ## Codec id parsing (nvdec-decoder.c, parse_codec_id) -/

/-- FFmpeg codec ids that `parse_codec_id` can return. -/
inductive CodecId : Type
  | h264
  | hevc
  | av1
deriving DecidableEq, Repr

/-- Pattern bytes used by `parse_codec_id`. -/
def avc1Chars : List Char := ['a', 'v', 'c', '1']

/-- Lowercase pattern for the case-insensitive `h264` check. -/
def h264Chars : List Char := ['h', '2', '6', '4']

/-- Pattern bytes for the case-sensitive `hev1` check. -/
def hev1Chars : List Char := ['h', 'e', 'v', '1']

/-- Pattern bytes for the case-sensitive `hvc1` check. -/
def hvc1Chars : List Char := ['h', 'v', 'c', '1']

/-- Lowercase pattern for the case-insensitive `hevc` check. -/
def hevcChars : List Char := ['h', 'e', 'v', 'c']

/-- Lowercase pattern for the case-insensitive `h265` check. -/
def h265Chars : List Char := ['h', '2', '6', '5']

/-- Pattern bytes for the case-sensitive `av01` check. -/
def av01Chars : List Char := ['a', 'v', '0', '1']

/-- Lowercase pattern for the 3-character case-insensitive `av1` check. -/
def av1Chars : List Char := ['a', 'v', '1']

/-- First `n` characters, lowercased: models `strncasecmp(codec, pat, n) == 0`
as equality with the lowercase pattern (codec strings here are ASCII and
NUL-free, so `strncmp`/`strncasecmp` compare exactly the first `n`
characters when the length guard holds). -/
def lowerTake (n : Nat) (l : List Char) : List Char :=
  (l.take n).map Char.toLower

/-- Embedding of `parse_codec_id` (nvdec-decoder.c lines 37-65).  The
codec string is a char list of length `codec_len` (`!codec` and
`codec_len == 0` both reduce to the empty list).  The boolean records
whether the unknown-codec warning was logged. -/
def parse_codec_id (codec : List Char) : CodecId × Bool :=
  if codec.length = 0 then (CodecId.h264, false)
  else if (4 ≤ codec.length ∧ codec.take 4 = avc1Chars) ∨
          (4 ≤ codec.length ∧ lowerTake 4 codec = h264Chars) then
    (CodecId.h264, false)
  else if (4 ≤ codec.length ∧ codec.take 4 = hev1Chars) ∨
          (4 ≤ codec.length ∧ codec.take 4 = hvc1Chars) ∨
          (4 ≤ codec.length ∧ lowerTake 4 codec = hevcChars) ∨
          (4 ≤ codec.length ∧ lowerTake 4 codec = h265Chars) then
    (CodecId.hevc, false)
  else if (4 ≤ codec.length ∧ codec.take 4 = av01Chars) ∨
          (3 ≤ codec.length ∧ lowerTake 3 codec = av1Chars) then
    (CodecId.av1, false)
  else (CodecId.h264, true)

/-! ## Session orchestrator (hang-source.c) -/

/-- Model of `strstr(url, "://")`: the first suffix of `url` that begins
with the three characters `:`, `/`, `/`, if any. -/
def findSchemeSep : List Char → Option (List Char)
  | [] => none
  | c :: rest =>
    if c = ':' ∧ rest.take 2 = ['/', '/'] then some (c :: rest)
    else findSchemeSep rest

/-- Oracle values for one `hang_source_activate` call. -/
structure ActivateEnv : Type where
  originRet : Int
  sessionRet : Int
deriving Repr

/-- The `cleanup:` label of `hang_source_activate` (lines 264-273): close
the session if live, then the origin if live. -/
def activateCleanup (s : HangState) (tr : List Event) : HangState × List Event :=
  let step1 := if 0 < s.session_id
               then ({ s with session_id := 0 }, tr ++ [Event.sessionClose])
               else (s, tr)
  if 0 < step1.1.origin_id
  then ({ step1.1 with origin_id := 0 }, step1.2 ++ [Event.originClose])
  else step1

/-- Embedding of `hang_source_activate` (lines 210-273): guards (already
active, missing or empty settings, URL without `://`, URL with empty
host), then origin create and session connect, each jumping to the
cleanup label on a non-positive handle; on success the source is marked
active. -/
def hang_source_activate (s : HangState) (url path : List Char)
    (env : ActivateEnv) : HangState × List Event :=
  if s.active = true ∨ url = [] ∨ path = [] then (s, [])
  else
    match findSchemeSep url with
    | none => (s, [])
    | some host_start =>
      if host_start.drop 3 = [] then (s, [])
      else
        let s1 := { s with origin_id := env.originRet }
        let tr1 := [Event.originCreate env.originRet]
        if env.originRet ≤ 0 then activateCleanup s1 tr1
        else
          let s2 := { s1 with session_id := env.sessionRet }
          let tr2 := tr1 ++ [Event.sessionConnect env.sessionRet]
          if env.sessionRet ≤ 0 then activateCleanup s2 tr2
          else ({ s2 with active := true }, tr2)

/-- Oracle values for one `on_session_status` callback. -/
structure StatusEnv : Type where
  consumeRet : Int
  catalogRet : Int
deriving Repr

/-- Embedding of `on_session_status` (lines 380-422): on code 0 subscribe
to the broadcast and then the catalog; a non-positive broadcast handle
marks the source inactive (closing nothing); a non-positive catalog
handle closes the broadcast consumer and marks the source inactive; a
negative code marks the source inactive; positive codes are ignored. -/
def on_session_status (s : HangState) (code : Int)
    (env : StatusEnv) : HangState × List Event :=
  if code = 0 then
    let s1 := { s with broadcast_id := env.consumeRet }
    let tr1 := [Event.consumeBroadcast env.consumeRet]
    if env.consumeRet ≤ 0 then ({ s1 with active := false }, tr1)
    else
      let s2 := { s1 with catalog_consumer_id := env.catalogRet }
      let tr2 := tr1 ++ [Event.subCatalog env.catalogRet]
      if env.catalogRet ≤ 0 then
        ({ s2 with broadcast_id := 0, active := false },
         tr2 ++ [Event.broadcastClose])
      else (s2, tr2)
  else if code < 0 then ({ s with active := false }, [])
  else (s, [])

/-- Embedding of `hang_source_deactivate` (lines 275-359): no-op when
inactive; otherwise clear `active` first, close the six MoQ resources in
reverse creation order (audio track, video track, catalog consumer,
broadcast consumer, session, origin), drain the queues, destroy both
decoders under the decoder gate, and reset the timestamp state. -/
def hang_source_deactivate (s : HangState) : HangState × List Event :=
  if s.active = false then (s, [])
  else
    let s0 := { s with active := false }
    let c1 : HangState × List Event := if 0 < s0.audio_track_id
              then ({ s0 with audio_track_id := 0 }, [Event.audioTrackClose])
              else (s0, [])
    let c2 : HangState × List Event := if 0 < c1.1.video_track_id
              then ({ c1.1 with video_track_id := 0 }, c1.2 ++ [Event.videoTrackClose])
              else c1
    let c3 : HangState × List Event := if 0 < c2.1.catalog_consumer_id
              then ({ c2.1 with catalog_consumer_id := 0 }, c2.2 ++ [Event.catalogClose])
              else c2
    let c4 : HangState × List Event := if 0 < c3.1.broadcast_id
              then ({ c3.1 with broadcast_id := 0 }, c3.2 ++ [Event.broadcastClose])
              else c3
    let c5 : HangState × List Event := if 0 < c4.1.session_id
              then ({ c4.1 with session_id := 0 }, c4.2 ++ [Event.sessionClose])
              else c4
    let c6 : HangState × List Event := if 0 < c5.1.origin_id
              then ({ c5.1 with origin_id := 0 }, c5.2 ++ [Event.originClose])
              else c5
    let s7 := { c6.1 with nvdec_present := false, audio_dec_present := false,
                          sws_present := false,
                          has_first_frame := false, first_frame_pts_us := 0,
                          first_frame_obs_time_ns := 0,
                          last_output_timestamp_ns := 0 }
    (s7, c6.2 ++ [Event.lock, Event.unlock])

/-- Embedding of `hang_source_destroy` (lines 102-176): deactivate, then
close any MoQ resource still live (same order), then destroy decoders
under the gate and free the remaining allocations. -/
def hang_source_destroy (s : HangState) : HangState × List Event :=
  let d := hang_source_deactivate s
  let s0 := d.1
  let c1 : HangState × List Event := if 0 < s0.audio_track_id
            then ({ s0 with audio_track_id := 0 }, [Event.audioTrackClose])
            else (s0, [])
  let c2 : HangState × List Event := if 0 < c1.1.video_track_id
            then ({ c1.1 with video_track_id := 0 }, c1.2 ++ [Event.videoTrackClose])
            else c1
  let c3 : HangState × List Event := if 0 < c2.1.catalog_consumer_id
            then ({ c2.1 with catalog_consumer_id := 0 }, c2.2 ++ [Event.catalogClose])
            else c2
  let c4 : HangState × List Event := if 0 < c3.1.broadcast_id
            then ({ c3.1 with broadcast_id := 0 }, c3.2 ++ [Event.broadcastClose])
            else c3
  let c5 : HangState × List Event := if 0 < c4.1.session_id
            then ({ c4.1 with session_id := 0 }, c4.2 ++ [Event.sessionClose])
            else c4
  let c6 : HangState × List Event := if 0 < c5.1.origin_id
            then ({ c5.1 with origin_id := 0 }, c5.2 ++ [Event.originClose])
            else c5
  let s7 := { c6.1 with nvdec_present := false, audio_dec_present := false,
                        sws_present := false }
  (s7, d.2 ++ c6.2 ++ [Event.lock, Event.unlock])

/-- Oracle values for one `on_catalog` callback. -/
structure CatalogEnv : Type where
  videoConfigRet : Int
  nvdecInitOk : Bool
  audioInitOk : Bool
  videoTrackRet : Int
  audioTrackRet : Int
deriving Repr

/-- Embedding of `on_catalog` (lines 424-518): inactive or non-positive
catalog ids are ignored; otherwise the existing video track is closed
first, then the audio track, the decoders are destroyed under the gate,
the decoders are reinitialized from the catalog config (a failed video
config read only falls back to defaults), and the two tracks are
re-subscribed (subscription failures only warn). -/
def on_catalog (s : HangState) (catalog_id : Int)
    (env : CatalogEnv) : HangState × List Event :=
  if s.active = false then (s, [])
  else if catalog_id ≤ 0 then (s, [])
  else
    let c1 : HangState × List Event := if 0 < s.video_track_id
              then ({ s with video_track_id := 0 }, [Event.videoTrackClose])
              else (s, [])
    let c2 : HangState × List Event := if 0 < c1.1.audio_track_id
              then ({ c1.1 with audio_track_id := 0 }, c1.2 ++ [Event.audioTrackClose])
              else c1
    let s2 := { c2.1 with nvdec_present := false, audio_dec_present := false,
                          sws_present := false }
    let tr2 := c2.2 ++ [Event.lock, Event.unlock]
    if env.nvdecInitOk = false then ({ s2 with active := false }, tr2)
    else
      let s3 := { s2 with nvdec_present := true }
      if env.audioInitOk = false then
        ({ s3 with nvdec_present := false, active := false }, tr2)
      else
        let s4 := { s3 with audio_dec_present := true,
                            video_track_id := env.videoTrackRet }
        let tr4 := tr2 ++ [Event.subVideoTrack env.videoTrackRet]
        let s5 := { s4 with audio_track_id := env.audioTrackRet }
        (s5, tr4 ++ [Event.subAudioTrack env.audioTrackRet])

/-! ## Lemmas about the bitstream normalizer -/

theorem convert_cons4 (b0 b1 b2 b3 : Nat) (rest : List Nat) :
    convert_mp4_nal_units_to_annex_b (b0 :: b1 :: b2 :: b3 :: rest) =
      (if rest.length < read_be32 b0 b1 b2 b3 then none
       else
         match convert_mp4_nal_units_to_annex_b (rest.drop (read_be32 b0 b1 b2 b3)) with
         | none => none
         | some out => some ([0, 0, 0, 1] ++ rest.take (read_be32 b0 b1 b2 b3) ++ out)) := by
  rw [convert_mp4_nal_units_to_annex_b]

theorem convert_short (l : List Nat) (h : l.length < 4) :
    convert_mp4_nal_units_to_annex_b l = some [] := by
  match l, h with
  | [], _ => rw [convert_mp4_nal_units_to_annex_b]; simp
  | [a], _ => rw [convert_mp4_nal_units_to_annex_b]; simp
  | [a, b], _ => rw [convert_mp4_nal_units_to_annex_b]; simp
  | [a, b, c], _ => rw [convert_mp4_nal_units_to_annex_b]; simp
  | a :: b :: c :: d :: r, h => simp [List.length_cons] at h; omega

theorem read_be32_be32 (n : Nat) (h : n < 4294967296) :
    read_be32 (n / 16777216 % 256) (n / 65536 % 256) (n / 256 % 256) (n % 256) = n := by
  unfold read_be32
  omega

theorem convert_encode_append (ns : List (List Nat)) (t : List Nat)
    (hns : ∀ p ∈ ns, p.length < 4294967296) :
    convert_mp4_nal_units_to_annex_b (encodeNALs ns ++ t) =
      Option.map (fun out => annexBOut ns ++ out)
        (convert_mp4_nal_units_to_annex_b t) := by
  induction ns with
  | nil =>
    simp only [encodeNALs, List.foldr_nil, List.nil_append, annexBOut,
      List.map_nil, List.flatten_nil]
    cases convert_mp4_nal_units_to_annex_b t <;> simp
  | cons p ns ih =>
    have hp : p.length < 4294967296 := hns p (by simp)
    have hns2 : ∀ q ∈ ns, q.length < 4294967296 := fun q hq => hns q (by simp [hq])
    have henc : encodeNALs (p :: ns) ++ t =
        (p.length / 16777216 % 256) :: (p.length / 65536 % 256) ::
        (p.length / 256 % 256) :: (p.length % 256) :: (p ++ (encodeNALs ns ++ t)) := by
      simp [encodeNALs, be32]
    rw [henc, convert_cons4, read_be32_be32 p.length hp]
    have hlen : ¬ ((p ++ (encodeNALs ns ++ t)).length < p.length) := by
      simp [List.length_append]
    rw [if_neg hlen]
    rw [List.take_left, List.drop_left]
    rw [ih hns2]
    cases h : convert_mp4_nal_units_to_annex_b t <;>
      simp [annexBOut, List.append_assoc]

theorem convert_overrun (b0 b1 b2 b3 : Nat) (rest : List Nat)
    (h : rest.length < read_be32 b0 b1 b2 b3) :
    convert_mp4_nal_units_to_annex_b (b0 :: b1 :: b2 :: b3 :: rest) = none := by
  rw [convert_cons4, if_pos h]

theorem annexBOut_length (ns : List (List Nat)) :
    (annexBOut ns).length = sumLens ns + 4 * ns.length := by
  induction ns with
  | nil => simp [annexBOut, sumLens]
  | cons p ns ih =>
    have h : annexBOut (p :: ns) = ([0, 0, 0, 1] ++ p) ++ annexBOut ns := by
      simp [annexBOut]
    have h2 : sumLens (p :: ns) = p.length + sumLens ns := by
      simp [sumLens]
    rw [h, List.length_append, ih, h2]
    simp only [List.length_append, List.length_cons, List.length_nil]
    omega

/-- C4: normalizing a well-formed sequence of `N` length-prefixed NAL
units with payload lengths summing to `S` succeeds and yields exactly the
payloads in order, each immediately preceded by `00 00 00 01`, for a total
output size of `S + 4N`. -/
theorem claim_C4_bitstream_roundtrip (ns : List (List Nat))
    (hns : ∀ p ∈ ns, p.length < 4294967296) :
    convert_mp4_nal_units_to_annex_b (encodeNALs ns) = some (annexBOut ns) ∧
    (annexBOut ns).length = sumLens ns + 4 * ns.length := by
  constructor
  · have h := convert_encode_append ns [] hns
    rw [List.append_nil] at h
    rw [h, convert_short [] (by simp)]
    simp
  · exact annexBOut_length ns

/-- Witness for C4 at a concrete two-unit input. -/
theorem claim_C4_bitstream_roundtrip_witness :
    convert_mp4_nal_units_to_annex_b (encodeNALs [[5], [7, 8]]) =
      some (annexBOut [[5], [7, 8]]) ∧
    (annexBOut [[5], [7, 8]]).length =
      sumLens [[5], [7, 8]] + 4 * ([[5], [7, 8]] : List (List Nat)).length :=
  claim_C4_bitstream_roundtrip [[5], [7, 8]] (by decide)

/-- C10: fewer than 4 remaining bytes end the conversion without failure:
any short trailer after well-formed units is silently discarded, an input
shorter than 4 bytes converts to the empty output, and `decode_frame`
submits that empty packet to the decoder (the first action after a
successful conversion is the packet submission, of size 0) instead of
rejecting it. -/
theorem claim_C10_short_tail (ns : List (List Nat)) (t : List Nat)
    (s : HangState) (data : List Nat) (pts : Nat) (env : DecodeEnv)
    (hns : ∀ p ∈ ns, p.length < 4294967296) (ht : t.length < 4)
    (hdata : data.length < 4) (halloc : env.packetAllocOk = true) :
    convert_mp4_nal_units_to_annex_b t = some [] ∧
    convert_mp4_nal_units_to_annex_b (encodeNALs ns ++ t) =
      convert_mp4_nal_units_to_annex_b (encodeNALs ns) ∧
    (decode_frame s data pts env).2.1.head? = some (Event.sendPacket 0) := by
  refine ⟨convert_short t ht, ?_, ?_⟩
  · have h1 := convert_encode_append ns t hns
    have h2 := convert_encode_append ns [] hns
    rw [List.append_nil] at h2
    rw [h1, h2, convert_short t ht, convert_short [] (by simp)]
  · by_cases hs : env.sendRet < 0
    · simp [decode_frame, convert_short data hdata, halloc, hs]
    · simp [decode_frame, convert_short data hdata, halloc, hs]

/-- Witness for C10 at concrete inputs (a one-unit stream with a 2-byte
trailer, and a 3-byte packet handed to `decode_frame`). -/
theorem claim_C10_short_tail_witness :
    convert_mp4_nal_units_to_annex_b [9, 9] = some [] ∧
    convert_mp4_nal_units_to_annex_b (encodeNALs [[3]] ++ [9, 9]) =
      convert_mp4_nal_units_to_annex_b (encodeNALs [[3]]) ∧
    (decode_frame initState [1, 2, 3] 0
      { packetAllocOk := true, sendRet := 0, drain := [] }).2.1.head? =
      some (Event.sendPacket 0) :=
  claim_C10_short_tail [[3]] [9, 9] initState [1, 2, 3] 0
    { packetAllocOk := true, sendRet := 0, drain := [] }
    (by decide) (by decide) (by decide) rfl

/-- C7: a declared NAL length that overruns the remaining input fails the
whole conversion (`none`: no partial output), and the video callback on
such a payload performs no packet submission and no resource close — its
trace is exactly lock, unlock, frame close — and leaves the state (in
particular `active`) unchanged. -/
theorem claim_C7_malformed_drop (s : HangState) (frame_id : Int)
    (env : VideoEnv) (ns : List (List Nat)) (b0 b1 b2 b3 : Nat)
    (rest : List Nat)
    (hactive : s.active = true) (hdec : s.nvdec_present = true)
    (hfid : 0 < frame_id) (hchunk : 0 ≤ env.chunkRet)
    (hns : ∀ p ∈ ns, p.length < 4294967296)
    (hpayload : env.payload = encodeNALs ns ++ (b0 :: b1 :: b2 :: b3 :: rest))
    (hover : rest.length < read_be32 b0 b1 b2 b3) :
    convert_mp4_nal_units_to_annex_b env.payload = none ∧
    on_video_frame (some s) frame_id env =
      (some s, [Event.lock, Event.unlock, Event.frameClose frame_id]) := by
  have hconv : convert_mp4_nal_units_to_annex_b env.payload = none := by
    rw [hpayload, convert_encode_append ns _ hns,
        convert_overrun b0 b1 b2 b3 rest hover]
    rfl
  refine ⟨hconv, ?_⟩
  have h1 : ¬ (frame_id ≤ 0) := by omega
  have h2 : ¬ (env.chunkRet < 0) := by omega
  simp [on_video_frame, nvdec_decoder_decode, decode_frame, hactive, hdec,
    hconv, h1, h2]

/-- A live streaming-state sample used by concrete witnesses. -/
def streamingState : HangState :=
  { initState with active := true, nvdec_present := true,
                   audio_dec_present := true, origin_id := 1, session_id := 2,
                   broadcast_id := 3, catalog_consumer_id := 4,
                   video_track_id := 5, audio_track_id := 6 }

/-- Decoder oracle with an immediately-empty drain, for witnesses. -/
def emptyDecodeEnv : DecodeEnv :=
  { packetAllocOk := true, sendRet := 0, drain := [] }

/-- Video-callback oracle carrying a malformed payload (one good NAL, then
a declared length 5 with only 2 bytes left), for the C7 witness. -/
def malformedVideoEnv : VideoEnv :=
  { chunkRet := 0,
    payload := encodeNALs [[9]] ++ (0 :: 0 :: 0 :: 5 :: [1, 2]),
    timestamp_us := 0,
    denv := emptyDecodeEnv }

/-- Witness for C7 at a concrete malformed payload. -/
theorem claim_C7_malformed_drop_witness :
    convert_mp4_nal_units_to_annex_b malformedVideoEnv.payload = none ∧
    on_video_frame (some streamingState) 7 malformedVideoEnv =
      (some streamingState, [Event.lock, Event.unlock, Event.frameClose 7]) :=
  claim_C7_malformed_drop streamingState 7 malformedVideoEnv [[9]] 0 0 0 5
    [1, 2] rfl rfl (by decide) (by decide) (by decide) rfl (by decide)

/-! ## C8: frame dimension validation -/

/-- C8: a decoded frame with zero width or height, width above 7680 or
height above 4320 is dropped — the trace of `output_decoded_frame` is
exactly one buffer free followed by the gate release, with no emission —
while a frame of exactly 7680 by 4320 passes the check and (on an active
source) is emitted. -/
theorem claim_C8_dimension_check (s : HangState) (w h pts now : Nat)
    (hbad : w = 0 ∨ h = 0 ∨ 7680 < w ∨ 4320 < h) :
    (output_decoded_frame s true w h pts now).2 = [Event.free, Event.unlock] ∧
    (∀ (s2 : HangState) (pts2 now2 : Nat), s2.active = true →
      (output_decoded_frame s2 true 7680 4320 pts2 now2).2 =
        [Event.unlock, Event.emit (mapTimestamp s2 pts2 now2).2, Event.free]) := by
  constructor
  · simp [output_decoded_frame, hbad]
  · intro s2 pts2 now2 hact
    simp [output_decoded_frame, hact]

/-- Witness for C8 at width 7681 (rejected) and at exactly 7680 by 4320
(accepted and emitted). -/
theorem claim_C8_dimension_check_witness :
    (output_decoded_frame streamingState true 7681 100 0 0).2 =
      [Event.free, Event.unlock] ∧
    (output_decoded_frame streamingState true 7680 4320 1 2).2 =
      [Event.unlock, Event.emit (mapTimestamp streamingState 1 2).2,
       Event.free] :=
  ⟨(claim_C8_dimension_check streamingState 7681 100 0 0 (by omega)).1,
   (claim_C8_dimension_check streamingState 7681 100 0 0 (by omega)).2
     streamingState 1 2 rfl⟩

/-! ## C5: timestamp mapper -/

theorem mapTimestamp_first (s : HangState) (p n : Nat)
    (hf : s.has_first_frame = false) :
    ((mapTimestamp s p n).1).has_first_frame = true ∧
    ((mapTimestamp s p n).1).last_output_timestamp_ns = (mapTimestamp s p n).2 := by
  simp [mapTimestamp, hf]

theorem mapTimestamp_step (s : HangState) (p n : Nat)
    (hf : s.has_first_frame = true)
    (hlt : s.last_output_timestamp_ns + 1 < U64) :
    ((mapTimestamp s p n).1).has_first_frame = true ∧
    ((mapTimestamp s p n).1).last_output_timestamp_ns = (mapTimestamp s p n).2 ∧
    s.last_output_timestamp_ns < (mapTimestamp s p n).2 := by
  refine ⟨by simp [mapTimestamp, hf], by simp [mapTimestamp, hf], ?_⟩
  by_cases hc : p * 1000 % U64 ≤ s.last_output_timestamp_ns
  · simp only [mapTimestamp, hf, Bool.true_eq_false, if_false, if_pos hc]
    rw [Nat.mod_eq_of_lt hlt]
    exact Nat.lt_succ_self _
  · simp only [mapTimestamp, hf, Bool.true_eq_false, if_false, if_neg hc]
    exact not_le.mp hc

theorem tsRun_chain_aux (l : List (Nat × Nat)) : ∀ (s : HangState),
    s.has_first_frame = true → s.last_output_timestamp_ns + 1 < U64 →
    (∀ o ∈ tsRun s l, o + 1 < U64) →
    List.Chain' (fun a b => a < b)
      (s.last_output_timestamp_ns :: tsRun s l) := by
  induction l with
  | nil => intro s _ _ _; simp [tsRun]
  | cons pn rest ih =>
    intro s hf hlt ho
    have hrun : tsRun s (pn :: rest) =
        (mapTimestamp s pn.1 pn.2).2 ::
          tsRun (mapTimestamp s pn.1 pn.2).1 rest := rfl
    obtain ⟨hstep1, hstep2, hstep3⟩ := mapTimestamp_step s pn.1 pn.2 hf hlt
    have hhead : (mapTimestamp s pn.1 pn.2).2 + 1 < U64 := by
      apply ho
      rw [hrun]
      exact List.mem_cons_self _ _
    have htail : ∀ o ∈ tsRun (mapTimestamp s pn.1 pn.2).1 rest, o + 1 < U64 := by
      intro o hmem
      apply ho
      rw [hrun]
      exact List.mem_cons_of_mem _ hmem
    have hchain := ih (mapTimestamp s pn.1 pn.2).1 hstep1
      (by rw [hstep2]; exact hhead) htail
    rw [hstep2] at hchain
    rw [hrun, List.chain'_cons]
    exact ⟨hstep3, hchain⟩

/-- C5 counterexample: the claim computes `t_ns = p_us * 1000` in
unbounded arithmetic, but the source computes it in `uint64_t`.  At
`p_us = 2^61` and a fresh activation the source emits timestamp 0
(`2^61 * 1000 = 125 * 2^64` wraps to 0), while the claim's reference
definition emits `2305843009213693952000`. -/
theorem claim_C5_counterexample :
    (mapTimestamp initState 2305843009213693952 42).2 = 0 ∧
    (mapTimestamp_claim initState 2305843009213693952 42).2 =
      2305843009213693952000 ∧
    (mapTimestamp initState 2305843009213693952 42).2 ≠
      (mapTimestamp_claim initState 2305843009213693952 42).2 := by
  refine ⟨by decide, by decide, by decide⟩

/-- C5 amended: the timestamp mapper satisfies the claim's reference
definition with all arithmetic performed modulo `2^64` (`uint64_t`), and
within one activation (starting from a reset timestamp state) the emitted
sequence is strictly increasing provided no emitted value sits at the
`uint64_t` wrap boundary (`o + 1 < 2^64` for every emitted `o`). -/
theorem claim_C5_amended :
    (∀ (s : HangState) (p n : Nat),
      mapTimestamp s p n = mapTimestamp_claim_u64 s p n) ∧
    (∀ (l : List (Nat × Nat)) (s : HangState), s.has_first_frame = false →
      (∀ o ∈ tsRun s l, o + 1 < U64) →
      List.Chain' (fun a b => a < b) (tsRun s l)) := by
  constructor
  · intro s p n
    rfl
  · intro l s hf ho
    match l with
    | [] => simp [tsRun]
    | pn :: rest =>
      have hrun : tsRun s (pn :: rest) =
          (mapTimestamp s pn.1 pn.2).2 ::
            tsRun (mapTimestamp s pn.1 pn.2).1 rest := rfl
      obtain ⟨hfirst1, hfirst2⟩ := mapTimestamp_first s pn.1 pn.2 hf
      have hhead : (mapTimestamp s pn.1 pn.2).2 + 1 < U64 := by
        apply ho
        rw [hrun]
        exact List.mem_cons_self _ _
      have htail : ∀ o ∈ tsRun (mapTimestamp s pn.1 pn.2).1 rest,
          o + 1 < U64 := by
        intro o hmem
        apply ho
        rw [hrun]
        exact List.mem_cons_of_mem _ hmem
      have hchain := tsRun_chain_aux rest (mapTimestamp s pn.1 pn.2).1 hfirst1
        (by rw [hfirst2]; exact hhead) htail
      rw [hfirst2] at hchain
      rw [hrun]
      exact hchain

/-- Witness for C5 at a concrete run: equal PTS then a regressing PTS,
emitted as 2000000000, 2000000001, 2000000002. -/
theorem claim_C5_amended_witness :
    mapTimestamp initState 5 9 = mapTimestamp_claim_u64 initState 5 9 ∧
    List.Chain' (fun a b => a < b)
      (tsRun initState [(2000000, 10), (2000000, 11), (1999999, 12)]) :=
  ⟨claim_C5_amended.1 initState 5 9,
   claim_C5_amended.2 [(2000000, 10), (2000000, 11), (1999999, 12)]
     initState rfl (by decide)⟩

/-! ## C3: frame handle release balance -/

theorem countE_append (e : Event) (a b : List Event) :
    countE e (a ++ b) = countE e a + countE e b := by
  induction a with
  | nil => simp [countE]
  | cons x xs ih => simp [countE, ih, Nat.add_assoc]

theorem countE_frameClose_output (f : Int) (s : HangState) (dp : Bool)
    (w h p n : Nat) :
    countE (Event.frameClose f) (output_decoded_frame s dp w h p n).2 = 0 := by
  by_cases hdp : dp = false
  · simp [output_decoded_frame, hdp, countE]
  · by_cases hwh : w = 0 ∨ h = 0 ∨ 7680 < w ∨ 4320 < h
    · simp [output_decoded_frame, hdp, hwh, countE]
    · by_cases hact : s.active = false
      · simp [output_decoded_frame, hdp, hwh, hact, countE]
      · simp [output_decoded_frame, hdp, hwh, hact, countE]

theorem countE_frameClose_drain (f : Int) (pts : Nat) :
    ∀ (items : List DrainItem) (s : HangState) (b : Bool),
    countE (Event.frameClose f) (drainLoop pts s items b).2.1 = 0 := by
  intro items
  induction items with
  | nil => intro s b; simp [drainLoop, countE]
  | cons it rest ih =>
    intro s b
    by_cases hfa : it.frameAllocOk = false
    · simp [drainLoop, hfa, countE]
    · cases hrecv : it.recv with
      | again => simp [drainLoop, hfa, hrecv, countE]
      | eof => simp [drainLoop, hfa, hrecv, countE]
      | err => simp [drainLoop, hfa, hrecv, countE]
      | ok w h fp =>
        by_cases hsw : s.sws_present = false ∧ it.swsOk = false
        · simp [drainLoop, hfa, hrecv, hsw, countE]
        · by_cases hr : it.rgbaOk = false
          · simp [drainLoop, hfa, hrecv, hsw, hr, countE]
          · by_cases hsc : it.scaleOk = false
            · simp [drainLoop, hfa, hrecv, hsw, hr, hsc, countE]
            · by_cases hwh : w = 0 ∨ h = 0
              · simp [drainLoop, hfa, hrecv, hsw, hr, hsc, hwh, countE]
              · simp [drainLoop, hfa, hrecv, hsw, hr, hsc, hwh, countE,
                  countE_append, countE_frameClose_output, ih]

theorem countE_frameClose_decode (f : Int) (s : HangState) (data : List Nat)
    (pts : Nat) (env : DecodeEnv) :
    countE (Event.frameClose f) (decode_frame s data pts env).2.1 = 0 := by
  unfold decode_frame
  cases hconv : convert_mp4_nal_units_to_annex_b data with
  | none => simp [countE]
  | some conv =>
    by_cases ha : env.packetAllocOk = false
    · simp [ha, countE]
    · by_cases hs : env.sendRet < 0
      · simp [ha, hs, countE]
      · simp [ha, hs, countE, countE_frameClose_drain]

theorem countE_frameClose_nvdec (f : Int) (s : HangState) (data : List Nat)
    (pts : Nat) (env : DecodeEnv) :
    countE (Event.frameClose f) (nvdec_decoder_decode s data pts env).2.1 = 0 := by
  unfold nvdec_decoder_decode
  split
  · simp [countE]
  · exact countE_frameClose_decode f s data pts env

/-- C3: every video or audio frame callback with a positive frame handle
performs exactly one `moq_consume_frame_close(frame_id)` before
returning, on every path (inactive source, chunk-read failure, missing
decoder, decode failure, decode success). -/
theorem claim_C3_frame_release_balance (ctx : Option HangState) (fid : Int)
    (venv : VideoEnv) (aenv : AudioEnv) (hfid : 0 < fid) :
    countE (Event.frameClose fid) (on_video_frame ctx fid venv).2 = 1 ∧
    countE (Event.frameClose fid) (on_audio_frame ctx fid aenv).2 = 1 := by
  have h1 : ¬ (fid ≤ 0) := by omega
  constructor
  · cases ctx with
    | none => simp [on_video_frame, hfid, countE]
    | some s =>
      by_cases hact : s.active = false
      · simp [on_video_frame, hact, hfid, countE]
      · by_cases hch : venv.chunkRet < 0
        · simp [on_video_frame, hact, h1, hch, countE]
        · by_cases hnv : s.nvdec_present = false
          · simp [on_video_frame, hact, h1, hch, hnv, countE]
          · by_cases hres :
              (nvdec_decoder_decode s venv.payload venv.timestamp_us venv.denv).2.2 = false
            · simp [on_video_frame, hact, h1, hch, hnv, hres, countE,
                countE_append, countE_frameClose_nvdec]
            · simp [on_video_frame, hact, h1, hch, hnv, hres, countE,
                countE_append, countE_frameClose_nvdec]
  · cases ctx with
    | none => simp [on_audio_frame, hfid, countE]
    | some s =>
      by_cases hact : s.active = false
      · simp [on_audio_frame, hact, hfid, countE]
      · by_cases hch : aenv.chunkRet < 0
        · simp [on_audio_frame, hact, h1, hch, countE]
        · by_cases hnv : s.audio_dec_present = false
          · simp [on_audio_frame, hact, h1, hch, hnv, countE]
          · simp [on_audio_frame, hact, h1, hch, hnv,
              audio_decoder_decode, countE]

/-- Witness for C3: the chunk-failure path on video and the success path
on audio, both at frame id 7. -/
theorem claim_C3_frame_release_balance_witness :
    countE (Event.frameClose 7)
      (on_video_frame (some streamingState) 7 malformedVideoEnv).2 = 1 ∧
    countE (Event.frameClose 7)
      (on_audio_frame (some streamingState) 7
        { chunkRet := 0, payload := [], timestamp_us := 0,
          decodeOk := true }).2 = 1 :=
  claim_C3_frame_release_balance (some streamingState) 7 malformedVideoEnv
    { chunkRet := 0, payload := [], timestamp_us := 0, decodeOk := true }
    (by decide)

/-! ## C1: decoder gate balance on the video path -/

/-- A drain oracle in which the decoder yields two frames for the single
submitted packet (both 16 by 16, taking the frame PTS from the packet). -/
def twoFrameDrain : List DrainItem :=
  [{ frameAllocOk := true, recv := RecvRes.ok 16 16 none, swsOk := true,
     rgbaOk := true, scaleOk := true, now_ns := 100 },
   { frameAllocOk := true, recv := RecvRes.ok 16 16 none, swsOk := true,
     rgbaOk := true, scaleOk := true, now_ns := 200 }]

/-- Video-callback oracle for an empty payload whose packet decodes to two
frames. -/
def twoFrameVideoEnv : VideoEnv :=
  { chunkRet := 0, payload := [], timestamp_us := 0,
    denv := { packetAllocOk := true, sendRet := 0, drain := twoFrameDrain } }

/-- C1 failing run: when the drain loop of `decode_frame` emits two
decoded frames for one submitted packet, `output_decoded_frame` runs its
unlock of `decoder_mutex` once per emission, so the callback performs two
unlocks against a single lock (and the second emission to the host sink
happens with the gate already released).  The claim that the unlock count
equals the lock count is violated by the code on this input. -/
theorem claim_C1_double_unlock :
    (on_video_frame (some streamingState) 7 twoFrameVideoEnv).2 =
      [Event.lock, Event.sendPacket 0, Event.unlock, Event.emit 0,
       Event.free, Event.unlock, Event.emit 1, Event.free,
       Event.frameClose 7] ∧
    countE Event.lock (on_video_frame (some streamingState) 7 twoFrameVideoEnv).2 = 1 ∧
    countE Event.unlock (on_video_frame (some streamingState) 7 twoFrameVideoEnv).2 = 2 := by
  have hconv : convert_mp4_nal_units_to_annex_b [] = some [] :=
    convert_short [] (by simp)
  have htr : (on_video_frame (some streamingState) 7 twoFrameVideoEnv).2 =
      [Event.lock, Event.sendPacket 0, Event.unlock, Event.emit 0,
       Event.free, Event.unlock, Event.emit 1, Event.free,
       Event.frameClose 7] := by
    simp [on_video_frame, nvdec_decoder_decode, decode_frame, hconv,
      twoFrameVideoEnv, twoFrameDrain, drainLoop, output_decoded_frame,
      mapTimestamp, streamingState, initState, U64]
  refine ⟨htr, ?_, ?_⟩
  · rw [htr]; decide
  · rw [htr]; decide

/-! ## C9: codec string parsing -/

theorem four_le_of_take4 (l x : List Char) (hx : x.length = 4)
    (h : l.take 4 = x) : 4 ≤ l.length := by
  have h2 := congrArg List.length h
  simp [List.length_take, hx] at h2
  omega

theorem four_le_of_lowerTake4 (l x : List Char) (hx : x.length = 4)
    (h : lowerTake 4 l = x) : 4 ≤ l.length := by
  have h2 := congrArg List.length h
  simp [lowerTake, List.length_take, hx] at h2
  omega

theorem three_le_of_lowerTake3 (l x : List Char) (hx : x.length = 3)
    (h : lowerTake 3 l = x) : 3 ≤ l.length := by
  have h2 := congrArg List.length h
  simp [lowerTake, List.length_take, hx] at h2
  omega

theorem lowerTake4_of_take4 (c X : List Char) (h : c.take 4 = X) :
    lowerTake 4 c = X.map Char.toLower := by
  unfold lowerTake
  rw [h]

theorem lowerTake3_of_take4 (c X : List Char) (h : c.take 4 = X) :
    lowerTake 3 c = (X.take 3).map Char.toLower := by
  unfold lowerTake
  rw [show c.take 3 = (c.take 4).take 3 by rw [List.take_take]; norm_num, h]

theorem lowerTake3_eq_take3_lowerTake4 (c : List Char) :
    lowerTake 3 c = (lowerTake 4 c).take 3 := by
  unfold lowerTake
  rw [← List.map_take, List.take_take]
  norm_num

/-- C9 counterexample: the empty codec string matches none of the
recognized patterns, so under the claim it should log the unknown-codec
warning, but `parse_codec_id` returns H.264 with no warning on the
`!codec || codec_len == 0` early path. -/
theorem claim_C9_counterexample :
    parse_codec_id [] = (CodecId.h264, false) ∧
    ([] : List Char).take 4 ≠ avc1Chars ∧ lowerTake 4 [] ≠ h264Chars ∧
    ([] : List Char).take 4 ≠ hev1Chars ∧ ([] : List Char).take 4 ≠ hvc1Chars ∧
    lowerTake 4 [] ≠ hevcChars ∧ lowerTake 4 [] ≠ h265Chars ∧
    ([] : List Char).take 4 ≠ av01Chars ∧ lowerTake 3 [] ≠ av1Chars := by
  decide

/-- C9 amended: a string starting with `avc1` (exact) or `h264` (any
case) maps to H.264 with no warning; `hev1`/`hvc1` (exact) or
`hevc`/`h265` (any case) map to HEVC; `av01` (exact) or a 3-character
`av1` prefix (any case) map to AV1; every other non-empty string logs the
warning and falls back to H.264; the empty (or null) codec string falls
back to H.264 without a warning. -/
theorem claim_C9_amended :
    (∀ c : List Char, c.take 4 = avc1Chars ∨ lowerTake 4 c = h264Chars →
      parse_codec_id c = (CodecId.h264, false)) ∧
    (∀ c : List Char, c.take 4 = hev1Chars ∨ c.take 4 = hvc1Chars ∨
        lowerTake 4 c = hevcChars ∨ lowerTake 4 c = h265Chars →
      parse_codec_id c = (CodecId.hevc, false)) ∧
    (∀ c : List Char, c.take 4 = av01Chars ∨ lowerTake 3 c = av1Chars →
      parse_codec_id c = (CodecId.av1, false)) ∧
    (∀ c : List Char, c ≠ [] →
      c.take 4 ≠ avc1Chars → lowerTake 4 c ≠ h264Chars →
      c.take 4 ≠ hev1Chars → c.take 4 ≠ hvc1Chars →
      lowerTake 4 c ≠ hevcChars → lowerTake 4 c ≠ h265Chars →
      c.take 4 ≠ av01Chars → lowerTake 3 c ≠ av1Chars →
      parse_codec_id c = (CodecId.h264, true)) ∧
    parse_codec_id [] = (CodecId.h264, false) := by
  refine ⟨?_, ?_, ?_, ?_, by decide⟩
  · intro c h
    rcases h with h | h
    · have hlen : 4 ≤ c.length := four_le_of_take4 c avc1Chars (by decide) h
      have hne : ¬ (c.length = 0) := by omega
      simp [parse_codec_id, hne, hlen, h]
    · have hlen : 4 ≤ c.length := four_le_of_lowerTake4 c h264Chars (by decide) h
      have hne : ¬ (c.length = 0) := by omega
      simp [parse_codec_id, hne, hlen, h]
  · intro c h
    rcases h with h | h | h | h
    · have hlen : 4 ≤ c.length := four_le_of_take4 c hev1Chars (by decide) h
      have hne : ¬ (c.length = 0) := by omega
      have hA : ¬ (c.take 4 = avc1Chars) := by rw [h]; decide
      have hB : ¬ (lowerTake 4 c = h264Chars) := by
        rw [lowerTake4_of_take4 c hev1Chars h]; decide
      simp [parse_codec_id, hne, hlen, h, hA, hB] <;> decide
    · have hlen : 4 ≤ c.length := four_le_of_take4 c hvc1Chars (by decide) h
      have hne : ¬ (c.length = 0) := by omega
      have hA : ¬ (c.take 4 = avc1Chars) := by rw [h]; decide
      have hB : ¬ (lowerTake 4 c = h264Chars) := by
        rw [lowerTake4_of_take4 c hvc1Chars h]; decide
      simp [parse_codec_id, hne, hlen, h, hA, hB] <;> decide
    · have hlen : 4 ≤ c.length := four_le_of_lowerTake4 c hevcChars (by decide) h
      have hne : ¬ (c.length = 0) := by omega
      have hA : ¬ (c.take 4 = avc1Chars) := by
        intro h2
        rw [lowerTake4_of_take4 c avc1Chars h2] at h
        exact absurd h (by decide)
      have hB : ¬ (lowerTake 4 c = h264Chars) := by rw [h]; decide
      simp [parse_codec_id, hne, hlen, h, hA, hB] <;> decide
    · have hlen : 4 ≤ c.length := four_le_of_lowerTake4 c h265Chars (by decide) h
      have hne : ¬ (c.length = 0) := by omega
      have hA : ¬ (c.take 4 = avc1Chars) := by
        intro h2
        rw [lowerTake4_of_take4 c avc1Chars h2] at h
        exact absurd h (by decide)
      have hB : ¬ (lowerTake 4 c = h264Chars) := by rw [h]; decide
      simp [parse_codec_id, hne, hlen, h, hA, hB] <;> decide
  · intro c h
    rcases h with h | h
    · have hlen : 4 ≤ c.length := four_le_of_take4 c av01Chars (by decide) h
      have hne : ¬ (c.length = 0) := by omega
      have hlow : lowerTake 4 c = av01Chars.map Char.toLower :=
        lowerTake4_of_take4 c av01Chars h
      have hA : ¬ (c.take 4 = avc1Chars) := by rw [h]; decide
      have hB : ¬ (lowerTake 4 c = h264Chars) := by rw [hlow]; decide
      have hC : ¬ (c.take 4 = hev1Chars) := by rw [h]; decide
      have hD : ¬ (c.take 4 = hvc1Chars) := by rw [h]; decide
      have hE : ¬ (lowerTake 4 c = hevcChars) := by rw [hlow]; decide
      have hF : ¬ (lowerTake 4 c = h265Chars) := by rw [hlow]; decide
      simp [parse_codec_id, hne, hlen, h, hA, hB, hC, hD, hE, hF] <;> decide
    · have hlen3 : 3 ≤ c.length := three_le_of_lowerTake3 c av1Chars (by decide) h
      have hne : ¬ (c.length = 0) := by omega
      have hA : ¬ (c.take 4 = avc1Chars) := by
        intro h2
        rw [lowerTake3_of_take4 c avc1Chars h2] at h
        exact absurd h (by decide)
      have hB : ¬ (lowerTake 4 c = h264Chars) := by
        intro h2
        have h3 := lowerTake3_eq_take3_lowerTake4 c
        rw [h2] at h3
        rw [h] at h3
        exact absurd h3 (by decide)
      have hC : ¬ (c.take 4 = hev1Chars) := by
        intro h2
        rw [lowerTake3_of_take4 c hev1Chars h2] at h
        exact absurd h (by decide)
      have hD : ¬ (c.take 4 = hvc1Chars) := by
        intro h2
        rw [lowerTake3_of_take4 c hvc1Chars h2] at h
        exact absurd h (by decide)
      have hE : ¬ (lowerTake 4 c = hevcChars) := by
        intro h2
        have h3 := lowerTake3_eq_take3_lowerTake4 c
        rw [h2] at h3
        rw [h] at h3
        exact absurd h3 (by decide)
      have hF : ¬ (lowerTake 4 c = h265Chars) := by
        intro h2
        have h3 := lowerTake3_eq_take3_lowerTake4 c
        rw [h2] at h3
        rw [h] at h3
        exact absurd h3 (by decide)
      simp [parse_codec_id, hne, hlen3, h, hA, hB, hC, hD, hE, hF] <;> decide
  · intro c hcne hA hB hC hD hE hF hG hH
    have hne : ¬ (c.length = 0) := by
      intro h0
      exact hcne (List.length_eq_zero.mp h0)
    simp [parse_codec_id, hne, hA, hB, hC, hD, hE, hF, hG, hH] <;> decide

/-- Witness for C9 at one concrete string per family. -/
theorem claim_C9_amended_witness :
    parse_codec_id ['a', 'v', 'c', '1', 'x'] = (CodecId.h264, false) ∧
    parse_codec_id ['H', 'E', 'V', 'C'] = (CodecId.hevc, false) ∧
    parse_codec_id ['A', 'V', '1'] = (CodecId.av1, false) ∧
    parse_codec_id ['x'] = (CodecId.h264, true) :=
  ⟨claim_C9_amended.1 _ (Or.inl (by decide)),
   claim_C9_amended.2.1 _ (Or.inr (Or.inr (Or.inl (by decide)))),
   claim_C9_amended.2.2.1 _ (Or.inr (by decide)),
   claim_C9_amended.2.2.2.1 _ (by decide) (by decide) (by decide) (by decide)
     (by decide) (by decide) (by decide) (by decide) (by decide)⟩

/-! ## C2: bringup failure teardown -/

/-- State right after a successful `hang_source_activate` (origin 1,
session 2, active), before `on_session_status` runs. -/
def connectedState : HangState :=
  { initState with active := true, origin_id := 1, session_id := 2 }

/-- C2 counterexample: when `moq_origin_consume` fails inside
`on_session_status`, the code only marks the source inactive — the origin
and session created during this bringup are left open (their handles stay
positive and no close call is performed), contradicting the claim that
everything created so far is closed. -/
theorem claim_C2_counterexample :
    (on_session_status connectedState 0 { consumeRet := -1, catalogRet := 0 }).2 =
      [Event.consumeBroadcast (-1)] ∧
    (on_session_status connectedState 0 { consumeRet := -1, catalogRet := 0 }).1.active = false ∧
    (on_session_status connectedState 0 { consumeRet := -1, catalogRet := 0 }).1.origin_id = 1 ∧
    (on_session_status connectedState 0 { consumeRet := -1, catalogRet := 0 }).1.session_id = 2 ∧
    countE Event.originClose
      (on_session_status connectedState 0 { consumeRet := -1, catalogRet := 0 }).2 = 0 ∧
    countE Event.sessionClose
      (on_session_status connectedState 0 { consumeRet := -1, catalogRet := 0 }).2 = 0 := by
  decide

/-- C2 amended: failures inside `hang_source_activate` itself tear down in
reverse order and leave the source inactive (origin-create failure closes
nothing, because nothing was created; session-connect failure closes the
origin).  Failures inside `on_session_status` mark the source inactive but
close only the broadcast consumer created in that callback (and only when
the catalog subscribe fails); the session and origin are left open. -/
theorem claim_C2_amended :
    (∀ (s : HangState) (url path hst : List Char) (env : ActivateEnv),
      s.active = false → url ≠ [] → path ≠ [] →
      findSchemeSep url = some hst → hst.drop 3 ≠ [] →
      s.session_id ≤ 0 → env.originRet ≤ 0 →
      hang_source_activate s url path env =
        ({ s with origin_id := env.originRet },
         [Event.originCreate env.originRet])) ∧
    (∀ (s : HangState) (url path hst : List Char) (env : ActivateEnv),
      s.active = false → url ≠ [] → path ≠ [] →
      findSchemeSep url = some hst → hst.drop 3 ≠ [] →
      0 < env.originRet → env.sessionRet ≤ 0 →
      hang_source_activate s url path env =
        ({ s with origin_id := 0, session_id := env.sessionRet },
         [Event.originCreate env.originRet,
          Event.sessionConnect env.sessionRet, Event.originClose])) ∧
    (∀ (s : HangState) (env : StatusEnv), env.consumeRet ≤ 0 →
      on_session_status s 0 env =
        ({ s with broadcast_id := env.consumeRet, active := false },
         [Event.consumeBroadcast env.consumeRet])) ∧
    (∀ (s : HangState) (env : StatusEnv),
      0 < env.consumeRet → env.catalogRet ≤ 0 →
      on_session_status s 0 env =
        ({ s with broadcast_id := 0, catalog_consumer_id := env.catalogRet,
                  active := false },
         [Event.consumeBroadcast env.consumeRet,
          Event.subCatalog env.catalogRet, Event.broadcastClose])) := by
  refine ⟨?_, ?_, ?_, ?_⟩
  · intro s url path hst env hs hu hp hsep hh hsid ho
    have h1 : ¬ (0 < s.session_id) := by omega
    have h2 : ¬ (0 < env.originRet) := by omega
    simp [hang_source_activate, activateCleanup, hs, hu, hp, hsep, hh, ho,
      h1, h2]
  · intro s url path hst env hs hu hp hsep hh ho hsr
    have h1 : ¬ (env.originRet ≤ 0) := by omega
    have h2 : ¬ (0 < env.sessionRet) := by omega
    simp [hang_source_activate, activateCleanup, hs, hu, hp, hsep, hh, ho,
      hsr, h1, h2]
  · intro s env hc
    simp [on_session_status, hc]
  · intro s env hc hcat
    have h1 : ¬ (env.consumeRet ≤ 0) := by omega
    simp [on_session_status, h1, hcat]

/-- Witness for C2: all four failure scenarios at concrete inputs. -/
theorem claim_C2_amended_witness :
    hang_source_activate initState ['a', ':', '/', '/', 'b'] ['d']
      { originRet := -3, sessionRet := 0 } =
      ({ initState with origin_id := -3 }, [Event.originCreate (-3)]) ∧
    hang_source_activate initState ['a', ':', '/', '/', 'b'] ['d']
      { originRet := 4, sessionRet := -2 } =
      ({ initState with origin_id := 0, session_id := -2 },
       [Event.originCreate 4, Event.sessionConnect (-2), Event.originClose]) ∧
    on_session_status connectedState 0 { consumeRet := -1, catalogRet := 0 } =
      ({ connectedState with broadcast_id := -1, active := false },
       [Event.consumeBroadcast (-1)]) ∧
    on_session_status connectedState 0 { consumeRet := 3, catalogRet := -7 } =
      ({ connectedState with broadcast_id := 0, catalog_consumer_id := -7,
                             active := false },
       [Event.consumeBroadcast 3, Event.subCatalog (-7),
        Event.broadcastClose]) :=
  ⟨claim_C2_amended.1 initState ['a', ':', '/', '/', 'b'] ['d']
      [':', '/', '/', 'b'] { originRet := -3, sessionRet := 0 }
      rfl (by decide) (by decide) (by decide) (by decide) (by decide) (by decide),
   claim_C2_amended.2.1 initState ['a', ':', '/', '/', 'b'] ['d']
      [':', '/', '/', 'b'] { originRet := 4, sessionRet := -2 }
      rfl (by decide) (by decide) (by decide) (by decide) (by decide) (by decide),
   claim_C2_amended.2.2.1 connectedState { consumeRet := -1, catalogRet := 0 }
      (by decide),
   claim_C2_amended.2.2.2 connectedState { consumeRet := 3, catalogRet := -7 }
      (by decide) (by decide)⟩

/-! ## C6: teardown order -/

/-- Catalog oracle in which both decoder inits and both track subscribes
succeed. -/
def catalogInitEnv : CatalogEnv :=
  { videoConfigRet := 0, nvdecInitOk := true, audioInitOk := true,
    videoTrackRet := 10, audioTrackRet := 11 }

/-- C6 counterexample: on a new catalog with both tracks live,
`on_catalog` closes the video track first and the audio track second —
the opposite of the claimed relative order (audio before video). -/
theorem claim_C6_counterexample :
    closesOf (on_catalog streamingState 9 catalogInitEnv).2 =
      [Event.videoTrackClose, Event.audioTrackClose] := by
  decide

/-- C6 amended: in `activate` cleanup, `on_session_status`, `deactivate`
and `destroy`, close calls occur in the relative order audio track, video
track, catalog consumer, broadcast consumer, session, origin (each trace's
close events form a sublist of that order); the catalog handler instead
closes the video track first and then the audio track, and closes nothing
else. -/
theorem claim_C6_amended :
    (∀ (s : HangState) (url path : List Char) (env : ActivateEnv),
      List.Sublist (closesOf (hang_source_activate s url path env).2)
        canonCloseOrder) ∧
    (∀ (s : HangState) (code : Int) (env : StatusEnv),
      List.Sublist (closesOf (on_session_status s code env).2)
        canonCloseOrder) ∧
    (∀ s : HangState,
      List.Sublist (closesOf (hang_source_deactivate s).2) canonCloseOrder) ∧
    (∀ s : HangState,
      List.Sublist (closesOf (hang_source_destroy s).2) canonCloseOrder) ∧
    (∀ (s : HangState) (catalog_id : Int) (env : CatalogEnv),
      List.Sublist (closesOf (on_catalog s catalog_id env).2)
        [Event.videoTrackClose, Event.audioTrackClose]) := by
  refine ⟨?_, ?_, ?_, ?_, ?_⟩
  · intro s url path env
    by_cases hg : s.active = true ∨ url = [] ∨ path = []
    · simp [hang_source_activate, hg, closesOf]
    · cases hsep : findSchemeSep url with
      | none => simp [hang_source_activate, hg, hsep, closesOf]
      | some hst =>
        by_cases hh : hst.drop 3 = []
        · simp [hang_source_activate, hg, hsep, hh, closesOf]
        · by_cases ho : env.originRet ≤ 0
          · have ho2 : ¬ (0 < env.originRet) := by omega
            by_cases hsid : 0 < s.session_id <;>
              simp [hang_source_activate, activateCleanup, hg, hsep, hh, ho,
                ho2, hsid, closesOf, isClose, canonCloseOrder] <;> decide
          · have ho2 : 0 < env.originRet := by omega
            by_cases hsr : env.sessionRet ≤ 0
            · have hsr2 : ¬ (0 < env.sessionRet) := by omega
              simp [hang_source_activate, activateCleanup, hg, hsep, hh, ho,
                ho2, hsr, hsr2, closesOf, isClose, canonCloseOrder] <;> decide
            · simp [hang_source_activate, activateCleanup, hg, hsep, hh, ho,
                hsr, closesOf, isClose]
  · intro s code env
    by_cases hc0 : code = 0
    · by_cases hcr : env.consumeRet ≤ 0
      · simp [on_session_status, hc0, hcr, closesOf, isClose]
      · by_cases hcat : env.catalogRet ≤ 0
        · simp [on_session_status, hc0, hcr, hcat, closesOf, isClose,
            canonCloseOrder] <;> decide
        · simp [on_session_status, hc0, hcr, hcat, closesOf, isClose]
    · by_cases hneg : code < 0
      · simp [on_session_status, hc0, hneg, closesOf]
      · simp [on_session_status, hc0, hneg, closesOf]
  · intro s
    by_cases h0 : s.active = false
    · simp [hang_source_deactivate, h0, closesOf]
    · by_cases h1 : 0 < s.audio_track_id <;>
      by_cases h2 : 0 < s.video_track_id <;>
      by_cases h3 : 0 < s.catalog_consumer_id <;>
      by_cases h4 : 0 < s.broadcast_id <;>
      by_cases h5 : 0 < s.session_id <;>
      by_cases h6 : 0 < s.origin_id <;>
      simp [hang_source_deactivate, h0, h1, h2, h3, h4, h5, h6, closesOf,
        isClose, canonCloseOrder] <;> decide
  · intro s
    by_cases h0 : s.active = false <;>
    by_cases h1 : 0 < s.audio_track_id <;>
    by_cases h2 : 0 < s.video_track_id <;>
    by_cases h3 : 0 < s.catalog_consumer_id <;>
    by_cases h4 : 0 < s.broadcast_id <;>
    by_cases h5 : 0 < s.session_id <;>
    by_cases h6 : 0 < s.origin_id <;>
    simp [hang_source_destroy, hang_source_deactivate, h0, h1, h2, h3, h4,
      h5, h6, closesOf, isClose, canonCloseOrder] <;> decide
  · intro s catalog_id env
    by_cases h0 : s.active = false
    · simp [on_catalog, h0, closesOf]
    · by_cases hc : catalog_id ≤ 0
      · simp [on_catalog, h0, hc, closesOf]
      · by_cases h1 : 0 < s.video_track_id <;>
        by_cases h2 : 0 < s.audio_track_id <;>
        by_cases h3 : env.nvdecInitOk = false <;>
        by_cases h4 : env.audioInitOk = false <;>
        simp [on_catalog, h0, hc, h1, h2, h3, h4, closesOf, isClose] <;>
        decide

end ObsMoq
